import Mathlib

/-!
Shallow embedding of the distributed loan workflow of the library-lending
platform: the catalog inventory service, the loan lifecycle service, the
notification projection service and the analytics aggregation service.
Each definition mirrors the corresponding Python function; database tables
are modelled as functions keyed by primary key or as lists of records, and
stateful endpoints pass their state explicitly.
-/

/-! ## Catalog Inventory Service (services/catalog_service/app.py) -/

/-- A row of the `book` table. -/
structure Book where
  id : Nat
  title : String
  author : String
  isbn : String
  total_copies : Int
  available_copies : Int
deriving Repr, DecidableEq

/-- The HTTP errors the inventory endpoints can raise
(404 "Book not found", 400 "Not enough copies available",
400 "Cannot exceed total copies"). -/
inductive CatalogError where
  | NotFound
  | InsufficientInventory
  | CapacityExceeded
deriving Repr, DecidableEq

/-- The catalog database, keyed by primary key (`session.get(Book, book_id)`). -/
abbrev CatalogDB := Nat → Option Book

/-- Committing a changed row back to the table. -/
def updateDB (db : CatalogDB) (book_id : Nat) (b : Book) : CatalogDB :=
  fun i => if i = book_id then some b else db i

/-- `POST /books/{book_id}/reserve` (`reserve_book`): 404 if the book is
absent, 400 if `available_copies < count`, otherwise decrement
`available_copies` by `count`, commit, and return the updated book. -/
def reserve_book (db : CatalogDB) (book_id : Nat) (count : Int) :
    Except CatalogError (CatalogDB × Book) :=
  match db book_id with
  | none => .error .NotFound
  | some book =>
    if book.available_copies < count then
      .error .InsufficientInventory
    else
      let book' := { book with available_copies := book.available_copies - count }
      .ok (updateDB db book_id book', book')

/-- `POST /books/{book_id}/release` (`release_book`): 404 if the book is
absent, 400 if `available_copies + count > total_copies`, otherwise
increment `available_copies` by `count`, commit, and return the updated
book. -/
def release_book (db : CatalogDB) (book_id : Nat) (count : Int) :
    Except CatalogError (CatalogDB × Book) :=
  match db book_id with
  | none => .error .NotFound
  | some book =>
    if book.available_copies + count > book.total_copies then
      .error .CapacityExceeded
    else
      let book' := { book with available_copies := book.available_copies + count }
      .ok (updateDB db book_id book', book')

/-- One inventory call arriving at the catalog service. -/
inductive InvCall where
  | reserve (book_id : Nat) (count : Int)
  | release (book_id : Nat) (count : Int)
deriving Repr, DecidableEq

/-- The `count` carried by an inventory call. -/
def InvCall.count : InvCall → Int
  | .reserve _ c => c
  | .release _ c => c

/-- The effect of one inventory call on the catalog database: a failing call
raises an HTTPException before any commit, so it leaves the table unchanged. -/
def applyCall (db : CatalogDB) : InvCall → CatalogDB
  | .reserve bid c =>
    match reserve_book db bid c with
    | .ok (db', _) => db'
    | .error _ => db
  | .release bid c =>
    match release_book db bid c with
    | .ok (db', _) => db'
    | .error _ => db

/-- Sequential execution of a list of inventory calls. -/
def applyCalls (db : CatalogDB) : List InvCall → CatalogDB
  | [] => db
  | c :: cs => applyCalls (applyCall db c) cs

/-- The per-book inventory invariant `0 ≤ available_copies ≤ total_copies`. -/
def BookOK (b : Book) : Prop :=
  0 ≤ b.available_copies ∧ b.available_copies ≤ b.total_copies

/-- Every book in the catalog satisfies the inventory invariant. -/
def CatalogOK (db : CatalogDB) : Prop :=
  ∀ i b, db i = some b → BookOK b

/-! ## Loan Lifecycle Service (services/loan_service/app.py) -/

/-- A row of the `loan` table.  Timestamps are modelled as a logical clock
(`Nat` ticks of `datetime.utcnow`). -/
structure Loan where
  id : Nat
  user_id : Int
  user_name : String
  book_id : Nat
  book_title : String
  loan_date : Nat
  due_date : Nat
  returned_date : Option Nat
  status : String
deriving Repr, DecidableEq

/-- A `{type, payload}` message published on the event bus by the loan
service (`publish_event`).  `date` carries the `due_date` of a
`loan.created` event and the `returned_date` of a `loan.returned` event. -/
structure PubEvent where
  etype : String
  loan_id : Nat
  user_id : Int
  user_name : String
  book_id : Nat
  book_title : String
  date : Nat
deriving Repr, DecidableEq

/-- The HTTP errors the loan endpoints can raise.  `InventoryFailure`
forwards a catalog error status from `adjust_inventory`. -/
inductive LoanError where
  | BookNotFound
  | NoAvailableCopies
  | DuplicateActiveLoan
  | InventoryFailure (e : CatalogError)
  | LoanNotFound
  | Forbidden
  | AlreadyReturned
deriving Repr, DecidableEq

/-- Combined state of the loan service, the catalog service it calls over
HTTP, and the stream of events published so far.  `nextLoanId` is the
autoincrement primary key counter, `now` the logical clock. -/
structure SysState where
  catalog : CatalogDB
  loans : List Loan
  nextLoanId : Nat
  now : Nat
  events : List PubEvent
deriving Inhabited

/-- Default of the `LOAN_PERIOD_DAYS` environment variable. -/
def LOAN_PERIOD_DAYS : Nat := 14

/-- The predicate of the duplicate-loan query:
`(Loan.user_id == user_id) & (Loan.book_id == book_id) & (Loan.status == "active")`. -/
def isActiveFor (user_id : Int) (book_id : Nat) (l : Loan) : Bool :=
  l.user_id == user_id && l.book_id == book_id && l.status == "active"

/-- Whether an `active` loan already exists for `(user_id, book_id)`. -/
def hasActiveLoan (st : SysState) (user_id : Int) (book_id : Nat) : Bool :=
  st.loans.any (isActiveFor user_id book_id)

/-- `POST /loans/` (`create_loan`): fetch the book from the catalog (404 →
`BookNotFound`); reject if `available_copies <= 0`; reject if an active
loan exists for the pair; call `reserve(book_id, 1)` on the catalog;
persist the new loan with `status="active"`; publish `loan.created`.
Every failure happens before any commit, so it leaves the state unchanged. -/
def create_loan (st : SysState) (user_id : Int) (user_name : String) (book_id : Nat) :
    SysState × Except LoanError Loan :=
  match st.catalog book_id with
  | none => (st, .error .BookNotFound)
  | some book =>
    if book.available_copies ≤ 0 then
      (st, .error .NoAvailableCopies)
    else if hasActiveLoan st user_id book_id then
      (st, .error .DuplicateActiveLoan)
    else
      match reserve_book st.catalog book_id 1 with
      | .error e => (st, .error (.InventoryFailure e))
      | .ok (catalog', _) =>
        let loan : Loan :=
          { id := st.nextLoanId
            user_id := user_id
            user_name := user_name
            book_id := book_id
            book_title := book.title
            loan_date := st.now
            due_date := st.now + LOAN_PERIOD_DAYS
            returned_date := none
            status := "active" }
        let ev : PubEvent :=
          { etype := "loan.created"
            loan_id := loan.id
            user_id := loan.user_id
            user_name := loan.user_name
            book_id := loan.book_id
            book_title := loan.book_title
            date := loan.due_date }
        ({ catalog := catalog'
           loans := st.loans ++ [loan]
           nextLoanId := st.nextLoanId + 1
           now := st.now + 1
           events := st.events ++ [ev] }, .ok loan)

/-- `POST /loans/{loan_id}/return` (`return_loan`): 404 if the loan is
absent, 403 if the requesting user is not the loan's user, 400 if the loan
is already returned; otherwise mark it returned and commit, then call
`release(book_id, 1)` on the catalog and publish `loan.returned`.  The
loan is committed before the release call, so a failing release still
leaves the loan marked returned (the spec's accepted inconsistency
window). -/
def return_loan (st : SysState) (loan_id : Nat) (user_id : Int) :
    SysState × Except LoanError Loan :=
  match st.loans.find? (fun l => l.id == loan_id) with
  | none => (st, .error .LoanNotFound)
  | some loan =>
    if !(loan.user_id == user_id) then
      (st, .error .Forbidden)
    else if loan.status == "returned" then
      (st, .error .AlreadyReturned)
    else
      let loan' := { loan with status := "returned", returned_date := some st.now }
      let st1 : SysState :=
        { st with
          loans := st.loans.map (fun l => if l.id == loan_id then loan' else l)
          now := st.now + 1 }
      match release_book st1.catalog loan.book_id 1 with
      | .error e => (st1, .error (.InventoryFailure e))
      | .ok (catalog', _) =>
        let ev : PubEvent :=
          { etype := "loan.returned"
            loan_id := loan.id
            user_id := loan.user_id
            user_name := loan.user_name
            book_id := loan.book_id
            book_title := loan.book_title
            date := st.now }
        ({ st1 with catalog := catalog', events := st1.events ++ [ev] }, .ok loan')

/-- Number of `active` loans for a `(user_id, book_id)` pair. -/
def countActive (loans : List Loan) (user_id : Int) (book_id : Nat) : Nat :=
  (loans.filter (isActiveFor user_id book_id)).length

/-- At most one `active` loan per `(user_id, book_id)` pair. -/
def AtMostOneActive (loans : List Loan) : Prop :=
  ∀ user_id book_id, countActive loans user_id book_id ≤ 1

/-- Python truthiness of the optional `user_id` query parameter:
`None` and `0` are falsy. -/
def truthyInt : Option Int → Bool
  | none => false
  | some v => !(v == 0)

/-- Python truthiness of the optional `status_filter` query parameter:
`None` and the empty string are falsy. -/
def truthyStr : Option String → Bool
  | none => false
  | some s => !(s == "")

/-- Insertion step of `ORDER BY loan_date DESC`. -/
def insertByDateDesc (l : Loan) : List Loan → List Loan
  | [] => [l]
  | x :: xs =>
    if x.loan_date < l.loan_date then l :: x :: xs else x :: insertByDateDesc l xs

/-- `ORDER BY loan_date DESC` on a result set. -/
def sortByDateDesc : List Loan → List Loan
  | [] => []
  | x :: xs => insertByDateDesc x (sortByDateDesc xs)

/-- `GET /loans/` (`list_loans`): apply the `user_id` filter only when
`user_id` is truthy, the `status_filter` only when it is truthy, and order
the result by `loan_date` descending. -/
def list_loans (loans : List Loan) (user_id : Option Int) (status_filter : Option String) :
    List Loan :=
  let q1 :=
    if truthyInt user_id then loans.filter (fun l => l.user_id == user_id.getD 0) else loans
  let q2 :=
    if truthyStr status_filter then q1.filter (fun l => l.status == status_filter.getD "")
    else q1
  sortByDateDesc q2

/-! ## Event messages as consumed (JSON dictionaries) -/

/-- The `payload` dictionary of a consumed event; each field may be absent. -/
structure EventPayload where
  user_id : Option Int
  user_name : Option String
  book_title : Option String
deriving Repr, DecidableEq

/-- The empty payload dictionary, the default of `event.get("payload", {})`. -/
def EventPayload.empty : EventPayload := ⟨none, none, none⟩

/-- A consumed event dictionary; `type` and `payload` may be absent. -/
structure Event where
  type : Option String
  payload : Option EventPayload
deriving Repr, DecidableEq

/-! ## Analytics Aggregation Service (services/analytics_service/app.py) -/

/-- The single global `aggregatemetric` row. -/
structure AggregateMetric where
  total_loans : Int
  active_loans : Int
  total_returns : Int
deriving Repr, DecidableEq

/-- A per-user `usermetric` row. -/
structure UserMetric where
  user_id : Int
  loans_taken : Int
  loans_returned : Int
deriving Repr, DecidableEq

/-- Analytics storage: the optional global row and the per-user table. -/
structure AnalyticsState where
  aggregate : Option AggregateMetric
  users : Int → Option UserMetric

/-- `get_or_create_aggregate`: the global row, created zeroed if absent. -/
def get_or_create_aggregate (st : AnalyticsState) : AggregateMetric :=
  st.aggregate.getD ⟨0, 0, 0⟩

/-- `get_or_create_user_metric`: the user's row, created zeroed if absent. -/
def get_or_create_user_metric (st : AnalyticsState) (user_id : Int) : UserMetric :=
  (st.users user_id).getD ⟨user_id, 0, 0⟩

/-- The aggregate-row update of the handler's `if event_type == ...` chain. -/
def apply_aggregate (event_type : Option String) (a : AggregateMetric) : AggregateMetric :=
  if event_type == some "loan.created" then
    { a with total_loans := a.total_loans + 1, active_loans := a.active_loans + 1 }
  else if event_type == some "loan.returned" then
    { a with total_returns := a.total_returns + 1, active_loans := max 0 (a.active_loans - 1) }
  else a

/-- The user-row update of the handler's `if event_type == ...` chain. -/
def apply_user (event_type : Option String) (m : UserMetric) : UserMetric :=
  if event_type == some "loan.created" then
    { m with loans_taken := m.loans_taken + 1 }
  else if event_type == some "loan.returned" then
    { m with loans_returned := m.loans_returned + 1 }
  else m

/-- The analytics `event_handler`: upsert the global row and, when the
payload carries a `user_id`, the user's row. -/
def analytics_event_handler (st : AnalyticsState) (event : Event) : AnalyticsState :=
  let event_type := event.type
  let payload := event.payload.getD EventPayload.empty
  let aggregate := apply_aggregate event_type (get_or_create_aggregate st)
  match payload.user_id with
  | some uid =>
    { aggregate := some aggregate
      users := fun i =>
        if i = uid then some (apply_user event_type (get_or_create_user_metric st uid))
        else st.users i }
  | none => { aggregate := some aggregate, users := st.users }

/-! ## Notification Projection Service (services/notification_service/app.py) -/

/-- Python string interpolation of an optional string: `None` renders as
the text `"None"`. -/
def optRepr : Option String → String
  | some s => s
  | none => "None"

/-- The `message` derivation of the notification `event_handler`. -/
def notification_message (event : Event) : String :=
  let event_type := event.type.getD "unknown"
  let payload := event.payload.getD EventPayload.empty
  if event_type == "loan.created" then
    optRepr payload.user_name ++ " взял книгу \"" ++ optRepr payload.book_title ++ "\"."
  else if event_type == "loan.returned" then
    optRepr payload.user_name ++ " вернул книгу \"" ++ optRepr payload.book_title ++ "\"."
  else
    "Получено событие " ++ event_type

/-- A row of the `notification` table. -/
structure Notification where
  id : Nat
  user_id : Int
  user_name : String
  book_title : String
  event_type : String
  message : String
  created_at : Nat
  delivered : Bool
deriving Repr, DecidableEq, Inhabited

/-- The notification `event_handler`: build one Notification row from the
event (with defaults for absent fields) and commit it. -/
def notification_event_handler (now : Nat) (event : Event) (db : List Notification) :
    List Notification :=
  let event_type := event.type.getD "unknown"
  let payload := event.payload.getD EventPayload.empty
  let n : Notification :=
    { id := db.length + 1
      user_id := payload.user_id.getD 0
      user_name := payload.user_name.getD "unknown"
      book_title := payload.book_title.getD "unknown"
      event_type := event_type
      message := notification_message event
      created_at := now
      delivered := false }
  db ++ [n]

/-- Modelled from the spec: the event-type-to-template lookup table of
§4.3, with the template strings the implementation actually renders. -/
def message_table (user book : String) : List (String × String) :=
  [("loan.created", user ++ " взял книгу \"" ++ book ++ "\"."),
   ("loan.returned", user ++ " вернул книгу \"" ++ book ++ "\".")]

/-- Modelled from the spec: derive the message by looking the event type up
in the table, falling back to the default template. -/
def lookup_message (event_type user book : String) : String :=
  ((message_table user book).lookup event_type).getD ("Получено событие " ++ event_type)

/-! ## Shared concrete fixtures -/

/-- A 3-copy book with 2 available copies. -/
def bookW : Book :=
  { id := 1, title := "Dune", author := "Herbert", isbn := "isbn-1",
    total_copies := 3, available_copies := 2 }

/-- A one-book catalog holding `bookW` at id 1. -/
def dbW : CatalogDB := fun i => if i = 1 then some bookW else none

/-- `bookW` with all three copies available. -/
def bookW3 : Book := { bookW with available_copies := 3 }

/-- The catalog after releasing the reserved copy of `bookW`. -/
def dbW3 : CatalogDB := updateDB dbW 1 bookW3

theorem dbW_ok : CatalogOK dbW := by
  intro i b h
  by_cases hi : i = 1
  · subst hi
    have hb : dbW 1 = some bookW := rfl
    rw [hb, Option.some.injEq] at h
    subst h
    exact ⟨by decide, by decide⟩
  · simp only [dbW, if_neg hi] at h
    cases h

/-! ## Claims about the catalog inventory endpoints -/

/-- C3: for every `book_id` and `count`, `reserve` fails with `NotFound` if
no book with that id exists; otherwise fails with `InsufficientInventory`
if `available_copies < count`; otherwise it decrements `available_copies`
by exactly `count`, commits the change and returns the updated record; in
every failure case the catalog is unchanged. -/
theorem C3_reserve_spec (db : CatalogDB) (bid : Nat) (cnt : Int) :
    (db bid = none →
      reserve_book db bid cnt = .error .NotFound ∧
      applyCall db (.reserve bid cnt) = db) ∧
    (∀ book, db bid = some book → book.available_copies < cnt →
      reserve_book db bid cnt = .error .InsufficientInventory ∧
      applyCall db (.reserve bid cnt) = db) ∧
    (∀ book, db bid = some book → ¬ book.available_copies < cnt →
      reserve_book db bid cnt =
        .ok (updateDB db bid { book with available_copies := book.available_copies - cnt },
             { book with available_copies := book.available_copies - cnt }) ∧
      updateDB db bid { book with available_copies := book.available_copies - cnt } bid =
        some { book with available_copies := book.available_copies - cnt }) := by
  refine ⟨fun h => ?_, fun book h hlt => ?_, fun book h hge => ?_⟩
  · simp [reserve_book, applyCall, h]
  · simp [reserve_book, applyCall, h, hlt]
  · simp [reserve_book, applyCall, h, hge, updateDB]

/-- Witness for C3: `NotFound` at a missing id, `InsufficientInventory`
when asking for 5 of 2 available copies, success when reserving 1. -/
theorem C3_reserve_spec_witness :
    (reserve_book dbW 2 1 = .error .NotFound ∧ applyCall dbW (.reserve 2 1) = dbW) ∧
    (reserve_book dbW 1 5 = .error .InsufficientInventory ∧
      applyCall dbW (.reserve 1 5) = dbW) ∧
    (reserve_book dbW 1 1 =
      .ok (updateDB dbW 1 { bookW with available_copies := bookW.available_copies - 1 },
           { bookW with available_copies := bookW.available_copies - 1 }) ∧
      updateDB dbW 1 { bookW with available_copies := bookW.available_copies - 1 } 1 =
        some { bookW with available_copies := bookW.available_copies - 1 }) :=
  ⟨(C3_reserve_spec dbW 2 1).1 rfl,
   (C3_reserve_spec dbW 1 5).2.1 bookW rfl (by decide),
   (C3_reserve_spec dbW 1 1).2.2 bookW rfl (by decide)⟩

/-- C4: for every `book_id` and `count`, `release` fails with `NotFound` if
no book with that id exists; otherwise fails with `CapacityExceeded` if
`available_copies + count > total_copies`, leaving `available_copies`
unchanged; otherwise it increments `available_copies` by `count`, commits
and returns the updated record. -/
theorem C4_release_spec (db : CatalogDB) (bid : Nat) (cnt : Int) :
    (db bid = none →
      release_book db bid cnt = .error .NotFound ∧
      applyCall db (.release bid cnt) = db) ∧
    (∀ book, db bid = some book →
      book.available_copies + cnt > book.total_copies →
      release_book db bid cnt = .error .CapacityExceeded ∧
      applyCall db (.release bid cnt) = db) ∧
    (∀ book, db bid = some book →
      ¬ book.available_copies + cnt > book.total_copies →
      release_book db bid cnt =
        .ok (updateDB db bid { book with available_copies := book.available_copies + cnt },
             { book with available_copies := book.available_copies + cnt }) ∧
      updateDB db bid { book with available_copies := book.available_copies + cnt } bid =
        some { book with available_copies := book.available_copies + cnt }) := by
  refine ⟨fun h => ?_, fun book h hgt => ?_, fun book h hle => ?_⟩
  · simp [release_book, applyCall, h]
  · simp [release_book, applyCall, h, hgt]
  · simp [release_book, applyCall, h, hle, updateDB]

/-- Witness for C4, following the spec's scenario on a 3-copy book with 2
available: release 1 yields 3 available; a further release fails with
`CapacityExceeded` and leaves the catalog unchanged; a missing id yields
`NotFound`. -/
theorem C4_release_spec_witness :
    (release_book dbW 1 1 =
      .ok (updateDB dbW 1 { bookW with available_copies := bookW.available_copies + 1 },
           { bookW with available_copies := bookW.available_copies + 1 }) ∧
      updateDB dbW 1 { bookW with available_copies := bookW.available_copies + 1 } 1 =
        some { bookW with available_copies := bookW.available_copies + 1 }) ∧
    (release_book dbW3 1 1 = .error .CapacityExceeded ∧
      applyCall dbW3 (.release 1 1) = dbW3) ∧
    (release_book dbW 2 1 = .error .NotFound ∧ applyCall dbW (.release 2 1) = dbW) :=
  ⟨(C4_release_spec dbW 1 1).2.2 bookW rfl (by decide),
   (C4_release_spec dbW3 1 1).2.1 bookW3 rfl (by decide),
   (C4_release_spec dbW 2 1).1 rfl⟩

/-! ## Claim C1: the inventory invariant under call sequences -/

theorem applyCall_preserves_CatalogOK (db : CatalogDB) (c : InvCall)
    (hc : 0 ≤ c.count) (hdb : CatalogOK db) : CatalogOK (applyCall db c) := by
  cases c with
  | reserve bid cnt =>
    simp only [InvCall.count] at hc
    cases hb : db bid with
    | none =>
      have hr : reserve_book db bid cnt = .error .NotFound := by
        simp [reserve_book, hb]
      simp only [applyCall, hr]
      exact hdb
    | some book =>
      by_cases hlt : book.available_copies < cnt
      · have hr : reserve_book db bid cnt = .error .InsufficientInventory := by
          simp [reserve_book, hb, hlt]
        simp only [applyCall, hr]
        exact hdb
      · have hr : reserve_book db bid cnt =
            .ok (updateDB db bid { book with available_copies := book.available_copies - cnt },
                 { book with available_copies := book.available_copies - cnt }) := by
          simp [reserve_book, hb, hlt]
        simp only [applyCall, hr]
        intro i b hib
        simp only [updateDB] at hib
        by_cases hi : i = bid
        · rw [if_pos hi, Option.some.injEq] at hib
          subst hib
          obtain ⟨h0, hle⟩ := hdb bid book hb
          exact ⟨by simp; omega, by simp; omega⟩
        · rw [if_neg hi] at hib
          exact hdb i b hib
  | release bid cnt =>
    simp only [InvCall.count] at hc
    cases hb : db bid with
    | none =>
      have hr : release_book db bid cnt = .error .NotFound := by
        simp [release_book, hb]
      simp only [applyCall, hr]
      exact hdb
    | some book =>
      by_cases hgt : book.available_copies + cnt > book.total_copies
      · have hr : release_book db bid cnt = .error .CapacityExceeded := by
          simp [release_book, hb, hgt]
        simp only [applyCall, hr]
        exact hdb
      · have hr : release_book db bid cnt =
            .ok (updateDB db bid { book with available_copies := book.available_copies + cnt },
                 { book with available_copies := book.available_copies + cnt }) := by
          simp [release_book, hb, hgt]
        simp only [applyCall, hr]
        intro i b hib
        simp only [updateDB] at hib
        by_cases hi : i = bid
        · rw [if_pos hi, Option.some.injEq] at hib
          subst hib
          obtain ⟨h0, hle⟩ := hdb bid book hb
          exact ⟨by simp; omega, by simp; omega⟩
        · rw [if_neg hi] at hib
          exact hdb i b hib

theorem applyCalls_preserves_CatalogOK (calls : List InvCall) (db : CatalogDB)
    (hc : ∀ c ∈ calls, 0 ≤ c.count) (hdb : CatalogOK db) :
    CatalogOK (applyCalls db calls) := by
  induction calls generalizing db with
  | nil => exact hdb
  | cons c cs ih =>
    exact ih _ (fun x hx => hc x (List.mem_cons_of_mem _ hx))
      (applyCall_preserves_CatalogOK db c (hc c (List.mem_cons_self _ _)) hdb)

/-- C1 counterexample: the claim quantifies over calls with any integer
count, but a reserve call with count `-5` on a valid 3-copy book with 2
available passes the `available_copies < count` check and commits
`available_copies = 7 > total_copies`, breaking the invariant. -/
theorem C1_counterexample :
    CatalogOK dbW ∧
    applyCalls dbW [InvCall.reserve 1 (-5)] 1 =
      some { bookW with available_copies := 7 } ∧
    ¬ CatalogOK (applyCalls dbW [InvCall.reserve 1 (-5)]) := by
  refine ⟨dbW_ok, by decide, fun h => ?_⟩
  have hb := h 1 { bookW with available_copies := 7 } (by decide)
  have h73 : (7 : Int) ≤ 3 := hb.2
  omega

/-- C1 (amended): for every book record and every sequence of reserve and
release calls with nonnegative counts, the invariant
`0 ≤ available_copies ≤ total_copies` holds after each call; a reserve
call with nonnegative count that would violate the invariant (asking for
more than is available) fails with `InsufficientInventory` and leaves the
catalog unchanged. -/
theorem C1_invariant_amended (db : CatalogDB) (calls : List InvCall)
    (hc : ∀ c ∈ calls, 0 ≤ c.count) (hdb : CatalogOK db) :
    CatalogOK (applyCalls db calls) ∧
    ∀ bid cnt book, 0 ≤ cnt → db bid = some book → book.available_copies < cnt →
      reserve_book db bid cnt = .error .InsufficientInventory ∧
      applyCall db (.reserve bid cnt) = db := by
  refine ⟨applyCalls_preserves_CatalogOK calls db hc hdb, ?_⟩
  intro bid cnt book _ hb hlt
  constructor
  · simp [reserve_book, hb, hlt]
  · simp [applyCall, reserve_book, hb, hlt]

/-- Witness for C1 (amended): a reserve followed by a release on the
concrete one-book catalog keeps the invariant, and over-reserving fails
leaving the catalog unchanged. -/
theorem C1_invariant_amended_witness :
    CatalogOK (applyCalls dbW [InvCall.reserve 1 1, InvCall.release 1 1]) ∧
    (reserve_book dbW 1 5 = .error .InsufficientInventory ∧
      applyCall dbW (.reserve 1 5) = dbW) :=
  ⟨(C1_invariant_amended dbW [InvCall.reserve 1 1, InvCall.release 1 1]
      (by intro c hcm; fin_cases hcm <;> decide) dbW_ok).1,
   (C1_invariant_amended dbW [] (by simp) dbW_ok).2 1 5 bookW (by decide) rfl (by decide)⟩

/-! ## Loan-service fixtures -/

/-- An active loan of user 7 on book 1. -/
def loanActive : Loan :=
  { id := 1, user_id := 7, user_name := "alice", book_id := 1, book_title := "Dune",
    loan_date := 0, due_date := 14, returned_date := none, status := "active" }

/-- A loan of user 7 already returned. -/
def loanReturned : Loan :=
  { loanActive with id := 2, status := "returned", returned_date := some 3 }

/-- The combined system before any loan exists. -/
def stW : SysState :=
  { catalog := dbW, loans := [], nextLoanId := 1, now := 0, events := [] }

/-- The combined system holding one active and one returned loan. -/
def stLoans : SysState :=
  { stW with loans := [loanActive, loanReturned], nextLoanId := 3 }

/-! ## Claim C5: ordering and effects of the return-loan checks -/

/-- C5: `return_loan` applies its checks in order `NotFound` (no such
loan), then `Forbidden` (requesting user differs from the loan's
`user_id`), then `AlreadyReturned` (status already `returned`); each
failure returns the state untouched, so an already-returned loan leaves
the loan table, the catalog inventory and the event stream unchanged. -/
theorem C5_return_checks_order (st : SysState) (lid : Nat) (uid : Int) :
    (st.loans.find? (fun l => l.id == lid) = none →
      return_loan st lid uid = (st, .error .LoanNotFound)) ∧
    (∀ loan, st.loans.find? (fun l => l.id == lid) = some loan →
      loan.user_id ≠ uid →
      return_loan st lid uid = (st, .error .Forbidden)) ∧
    (∀ loan, st.loans.find? (fun l => l.id == lid) = some loan →
      loan.user_id = uid → loan.status = "returned" →
      return_loan st lid uid = (st, .error .AlreadyReturned)) := by
  refine ⟨fun h => ?_, fun loan h hne => ?_, fun loan h he hs => ?_⟩
  · simp [return_loan, h]
  · simp [return_loan, h, hne]
  · simp [return_loan, h, he, hs]

/-- Witness for C5 on concrete states: a missing loan id, a wrong user on
the active loan, and a second return of the returned loan. -/
theorem C5_return_checks_order_witness :
    return_loan stLoans 5 7 = (stLoans, .error .LoanNotFound) ∧
    return_loan stLoans 1 8 = (stLoans, .error .Forbidden) ∧
    return_loan stLoans 2 7 = (stLoans, .error .AlreadyReturned) :=
  ⟨(C5_return_checks_order stLoans 5 7).1 (by decide),
   (C5_return_checks_order stLoans 1 8).2.1 loanActive (by decide) (by decide),
   (C5_return_checks_order stLoans 2 7).2.2 loanReturned (by decide) rfl rfl⟩

/-! ## Claim C2: at most one active loan per (user, book) pair -/

/-- A 1-copy book with nothing available (its single copy is out). -/
def bookZero : Book := { bookW with total_copies := 1, available_copies := 0 }

/-- System where user 7 already holds the active loan on book 1 and the
book has no available copies. -/
def stDup : SysState :=
  { catalog := fun i => if i = 1 then some bookZero else none,
    loans := [loanActive], nextLoanId := 3, now := 5, events := [] }

theorem countActive_append (l1 l2 : List Loan) (uid : Int) (bid : Nat) :
    countActive (l1 ++ l2) uid bid = countActive l1 uid bid + countActive l2 uid bid := by
  simp [countActive, List.filter_append]

theorem countActive_eq_zero (loans : List Loan) (uid : Int) (bid : Nat)
    (h : loans.any (isActiveFor uid bid) = false) : countActive loans uid bid = 0 := by
  induction loans with
  | nil => rfl
  | cons a l ih =>
    simp only [List.any_cons, Bool.or_eq_false_iff] at h
    simp only [countActive, List.filter_cons, h.1, Bool.false_eq_true, if_false]
    exact ih h.2

theorem length_filter_map_le (f : Loan → Loan) (p : Loan → Bool)
    (h : ∀ a, p (f a) = true → p a = true) (l : List Loan) :
    ((l.map f).filter p).length ≤ (l.filter p).length := by
  induction l with
  | nil => simp
  | cons a l ih =>
    simp only [List.map_cons, List.filter_cons]
    cases hfa : p (f a) with
    | true =>
      rw [if_pos (h a hfa)]
      simpa using Nat.succ_le_succ ih
    | false =>
      cases hpa : p a with
      | true =>
        simp only [hfa, Bool.false_eq_true, if_false, hpa, if_true, List.length_cons]
        omega
      | false => simp only [hfa, Bool.false_eq_true, if_false, hpa, if_false]; exact ih

theorem create_loan_loans_cases (st : SysState) (uid : Int) (un : String) (bid : Nat) :
    ((create_loan st uid un bid).1.loans = st.loans) ∨
    (hasActiveLoan st uid bid = false ∧
      ∃ loan, (create_loan st uid un bid).1.loans = st.loans ++ [loan] ∧
        loan.user_id = uid ∧ loan.book_id = bid) := by
  unfold create_loan
  cases hb : st.catalog bid with
  | none => exact Or.inl rfl
  | some book =>
    by_cases h0 : book.available_copies ≤ 0
    · simp only [h0, if_true]
      exact Or.inl trivial
    · simp only [h0, if_false]
      by_cases hdup : hasActiveLoan st uid bid
      · simp only [hdup, if_true]
        exact Or.inl trivial
      · simp only [hdup, if_false]
        cases hr : reserve_book st.catalog bid 1 with
        | error e => exact Or.inl rfl
        | ok p =>
          refine Or.inr ⟨trivial, ?_⟩
          exact ⟨_, rfl, rfl, rfl⟩

theorem AtMostOneActive_create (st : SysState) (uid : Int) (un : String) (bid : Nat)
    (h : AtMostOneActive st.loans) :
    AtMostOneActive ((create_loan st uid un bid).1).loans := by
  rcases create_loan_loans_cases st uid un bid with hl | ⟨hdup, loan, hl, hu, hbk⟩
  · rw [hl]; exact h
  · rw [hl]
    intro uid' bid'
    rw [countActive_append]
    by_cases hact : isActiveFor uid' bid' loan = true
    · have hands := hact
      simp only [isActiveFor, Bool.and_eq_true, beq_iff_eq] at hands
      obtain ⟨⟨hu', hb'⟩, _⟩ := hands
      have h0 : countActive st.loans uid' bid' = 0 := by
        apply countActive_eq_zero
        rw [← hu', ← hb', hu, hbk]
        exact hdup
      have h1 : countActive [loan] uid' bid' = 1 := by
        simp [countActive, List.filter_cons, hact]
      omega
    · have h1 : countActive [loan] uid' bid' = 0 := by
        simp only [Bool.not_eq_true] at hact
        simp [countActive, List.filter_cons, hact]
      have h2 := h uid' bid'
      omega

theorem return_loan_loans_cases (st : SysState) (lid : Nat) (uid : Int) :
    ((return_loan st lid uid).1.loans = st.loans) ∨
    ∃ loan' : Loan, loan'.status = "returned" ∧
      (return_loan st lid uid).1.loans =
        st.loans.map (fun l => if l.id == lid then loan' else l) := by
  unfold return_loan
  cases hf : st.loans.find? (fun l => l.id == lid) with
  | none => exact Or.inl rfl
  | some loan =>
    by_cases hu : (!(loan.user_id == uid)) = true
    · simp only [hu, if_true]
      exact Or.inl trivial
    · simp only [hu, if_false]
      by_cases hs : (loan.status == "returned") = true
      · simp only [hu, Bool.false_eq_true, if_false, hs, if_true]
        exact Or.inl trivial
      · simp only [hs, if_false]
        cases hr : release_book st.catalog loan.book_id 1 with
        | error e => exact Or.inr ⟨_, rfl, rfl⟩
        | ok p => exact Or.inr ⟨_, rfl, rfl⟩

theorem AtMostOneActive_return (st : SysState) (lid : Nat) (uid : Int)
    (h : AtMostOneActive st.loans) :
    AtMostOneActive ((return_loan st lid uid).1).loans := by
  rcases return_loan_loans_cases st lid uid with hl | ⟨loan', hs, hl⟩
  · rw [hl]; exact h
  · rw [hl]
    intro uid' bid'
    refine le_trans ?_ (h uid' bid')
    simp only [countActive]
    apply length_filter_map_le
    intro a ha
    by_cases hid : (a.id == lid) = true
    · rw [if_pos hid] at ha
      exfalso
      simp [isActiveFor, hs] at ha
    · rwa [if_neg hid] at ha

theorem stLoans_atMostOne : AtMostOneActive stLoans.loans := by
  intro uid bid
  have h2 : isActiveFor uid bid loanReturned = false := by
    simp [isActiveFor, loanReturned, loanActive]
  show countActive [loanActive, loanReturned] uid bid ≤ 1
  cases h1 : isActiveFor uid bid loanActive <;>
    simp [countActive, List.filter_cons, h1, h2]

/-- C2 counterexample: in a state where user 7 already holds the active
loan on book 1 and the book has no available copies, the duplicate
create-loan request fails with `NoAvailableCopies` (the availability check
runs first), not with `DuplicateActiveLoan` as the claim states. -/
theorem C2_counterexample :
    hasActiveLoan stDup 7 1 = true ∧
    (create_loan stDup 7 "alice" 1).2 = .error .NoAvailableCopies ∧
    (create_loan stDup 7 "alice" 1).2 ≠ .error .DuplicateActiveLoan :=
  ⟨rfl, rfl, by
    intro h
    have h' : Except.error (α := Loan) LoanError.NoAvailableCopies =
        Except.error LoanError.DuplicateActiveLoan := h
    exact absurd (Except.error.inj h') (by decide)⟩

/-- C2 (amended): at most one active loan exists per `(user_id, book_id)`
pair under sequential execution of create-loan and return-loan; a
create-loan request for a pair that already has an active loan fails,
creates no loan record and performs no inventory reservation (the state is
returned unchanged), and the failure is specifically
`DuplicateActiveLoan` whenever the book exists and still has available
copies (otherwise the availability precheck rejects first). -/
theorem C2_amended (st : SysState) (uid ruid : Int) (un : String) (bid lid : Nat) :
    (hasActiveLoan st uid bid = true →
      (create_loan st uid un bid).1 = st ∧
      ∃ e, (create_loan st uid un bid).2 = .error e) ∧
    (∀ book, st.catalog bid = some book → 0 < book.available_copies →
      hasActiveLoan st uid bid = true →
      create_loan st uid un bid = (st, .error .DuplicateActiveLoan)) ∧
    (AtMostOneActive st.loans →
      AtMostOneActive ((create_loan st uid un bid).1).loans ∧
      AtMostOneActive ((return_loan st lid ruid).1).loans) := by
  refine ⟨fun hdup => ?_, fun book hb h0 hdup => ?_,
    fun hinv => ⟨AtMostOneActive_create st uid un bid hinv,
                 AtMostOneActive_return st lid ruid hinv⟩⟩
  · unfold create_loan
    cases hb : st.catalog bid with
    | none => exact ⟨rfl, .BookNotFound, rfl⟩
    | some book =>
      by_cases h0 : book.available_copies ≤ 0
      · simp only [h0, if_true]
        exact ⟨trivial, .NoAvailableCopies, rfl⟩
      · simp only [h0, if_false, hdup, if_true]
        exact ⟨trivial, .DuplicateActiveLoan, rfl⟩
  · have h0' : ¬ book.available_copies ≤ 0 := not_le.mpr h0
    simp [create_loan, hb, h0', hdup]

/-- Witness for C2 (amended): on the concrete state where user 7 holds the
active loan on the 2-available book 1, the duplicate request fails with
`DuplicateActiveLoan`, the state is unchanged, and the pair still has at
most one active loan. -/
theorem C2_amended_witness :
    create_loan stLoans 7 "alice" 1 = (stLoans, .error .DuplicateActiveLoan) ∧
    countActive ((create_loan stLoans 7 "alice" 1).1).loans 7 1 ≤ 1 :=
  ⟨(C2_amended stLoans 7 7 "alice" 1 1).2.1 bookW rfl (by decide) (by decide),
   ((C2_amended stLoans 7 7 "alice" 1 1).2.2 stLoans_atMostOne).1 7 1⟩

/-! ## Claim C6: create-then-return restores availability -/

theorem find?_append_singleton (l : List Loan) (a : Loan) (p : Loan → Bool)
    (h : ∀ x ∈ l, p x = false) (hp : p a = true) :
    (l ++ [a]).find? p = some a := by
  induction l with
  | nil => simp [List.find?, hp]
  | cons x xs ih =>
    have hx := h x (List.mem_cons_self _ _)
    simp only [List.cons_append, List.find?, hx]
    exact ih fun y hy => h y (List.mem_cons_of_mem _ hy)

/-- C6: for every book record with `available_copies ≤ total_copies` and a
loan table with fresh autoincrement ids, successfully creating a loan on
the book and then returning that loan succeeds and restores the book's
`available_copies` to its pre-loan value. -/
theorem C6_roundtrip (st : SysState) (uid : Int) (un : String) (bid : Nat) (book : Book)
    (hfresh : ∀ l ∈ st.loans, l.id < st.nextLoanId)
    (hb : st.catalog bid = some book)
    (hbound : book.available_copies ≤ book.total_copies)
    (st1 : SysState) (loan : Loan)
    (hcreate : create_loan st uid un bid = (st1, .ok loan)) :
    (return_loan st1 loan.id uid).2.isOk = true ∧
    ((return_loan st1 loan.id uid).1.catalog bid).map Book.available_copies =
      some book.available_copies := by
  by_cases h0 : book.available_copies ≤ 0
  · exfalso
    simp [create_loan, hb, h0] at hcreate
  by_cases hdup : hasActiveLoan st uid bid
  · exfalso
    simp [create_loan, hb, h0, hdup] at hcreate
  have hneg : ¬ book.available_copies < 1 := by omega
  have hr : reserve_book st.catalog bid 1 =
      .ok (updateDB st.catalog bid { book with available_copies := book.available_copies - 1 },
           { book with available_copies := book.available_copies - 1 }) := by
    simp [reserve_book, hb, hneg]
  simp only [create_loan, hb, h0, if_false, hdup, hr, Prod.mk.injEq, Except.ok.injEq] at hcreate
  obtain ⟨hst1, hloan⟩ := hcreate
  have hfind : (st.loans ++
      [{ id := st.nextLoanId, user_id := uid, user_name := un, book_id := bid,
         book_title := book.title, loan_date := st.now,
         due_date := st.now + LOAN_PERIOD_DAYS, returned_date := none,
         status := "active" : Loan }]).find? (fun l => l.id == st.nextLoanId) =
      some { id := st.nextLoanId, user_id := uid, user_name := un, book_id := bid,
             book_title := book.title, loan_date := st.now,
             due_date := st.now + LOAN_PERIOD_DAYS, returned_date := none,
             status := "active" : Loan } := by
    apply find?_append_singleton
    · intro x hx
      exact beq_eq_false_iff_ne.mpr (Nat.ne_of_lt (hfresh x hx))
    · simp
  have hcond : (book.total_copies < book.available_copies) = False :=
    eq_false (by omega)
  constructor
  · simp [return_loan, hfind, release_book, updateDB, hcond, Except.isOk, Except.toBool]
  · simp [return_loan, hfind, release_book, updateDB, hcond]
    try omega

/-- The loan created by the witness run of C6. -/
def loanW : Loan :=
  { id := 1, user_id := 7, user_name := "alice", book_id := 1, book_title := "Dune",
    loan_date := 0, due_date := 14, returned_date := none, status := "active" }

/-- Witness for C6: on the fresh one-book system, creating a loan for user
7 and returning it succeeds and brings `available_copies` back to 2. -/
theorem C6_roundtrip_witness :
    (return_loan (create_loan stW 7 "alice" 1).1 1 7).2.isOk = true ∧
    ((return_loan (create_loan stW 7 "alice" 1).1 1 7).1.catalog 1).map Book.available_copies =
      some bookW.available_copies :=
  C6_roundtrip stW 7 "alice" 1 bookW (by simp [stW]) rfl (by decide)
    (create_loan stW 7 "alice" 1).1 loanW rfl

/-! ## Claim C7: analytics counter updates -/

theorem apply_aggregate_active_nonneg (t : Option String) (a : AggregateMetric)
    (h : 0 ≤ a.active_loans) : 0 ≤ (apply_aggregate t a).active_loans := by
  unfold apply_aggregate
  split_ifs
  · simpa using by omega
  · exact le_max_left 0 _
  · exact h

/-- The empty analytics store. -/
def stA0 : AnalyticsState := ⟨none, fun _ => none⟩

/-- A `loan.created` event for user 3. -/
def evCreated3 : Event := ⟨some "loan.created", some ⟨some 3, some "bob", some "Dune"⟩⟩

/-- A `loan.returned` event for user 3. -/
def evReturned3 : Event := ⟨some "loan.returned", some ⟨some 3, some "bob", some "Dune"⟩⟩

/-- C7: the analytics handler increments `total_loans`, `active_loans` and
the user's `loans_taken` on `loan.created`; increments `total_returns` and
the user's `loans_returned` and floors `active_loans - 1` at zero on
`loan.returned`, so `active_loans` never goes negative; consuming one
`loan.created` then one `loan.returned` for user 3 yields
`total_loans = 1`, `total_returns = 1`, `loans_taken = 1`,
`loans_returned = 1`. -/
theorem C7_analytics_updates (st : AnalyticsState) (event : Event) :
    (event.type = some "loan.created" →
      (analytics_event_handler st event).aggregate =
        some { get_or_create_aggregate st with
               total_loans := (get_or_create_aggregate st).total_loans + 1,
               active_loans := (get_or_create_aggregate st).active_loans + 1 } ∧
      ∀ uid, (event.payload.getD EventPayload.empty).user_id = some uid →
        (analytics_event_handler st event).users uid =
          some { get_or_create_user_metric st uid with
                 loans_taken := (get_or_create_user_metric st uid).loans_taken + 1 }) ∧
    (event.type = some "loan.returned" →
      (analytics_event_handler st event).aggregate =
        some { get_or_create_aggregate st with
               total_returns := (get_or_create_aggregate st).total_returns + 1,
               active_loans := max 0 ((get_or_create_aggregate st).active_loans - 1) } ∧
      ∀ uid, (event.payload.getD EventPayload.empty).user_id = some uid →
        (analytics_event_handler st event).users uid =
          some { get_or_create_user_metric st uid with
                 loans_returned := (get_or_create_user_metric st uid).loans_returned + 1 }) ∧
    (0 ≤ (get_or_create_aggregate st).active_loans →
      0 ≤ (get_or_create_aggregate (analytics_event_handler st event)).active_loans) ∧
    ((analytics_event_handler (analytics_event_handler stA0 evCreated3) evReturned3).aggregate =
        some ⟨1, 0, 1⟩ ∧
      (analytics_event_handler (analytics_event_handler stA0 evCreated3) evReturned3).users 3 =
        some ⟨3, 1, 1⟩) := by
  refine ⟨fun hc => ⟨?_, fun uid hu => ?_⟩, fun hrt => ⟨?_, fun uid hu => ?_⟩,
    fun hpos => ?_, by decide, by decide⟩
  · cases hp : (event.payload.getD EventPayload.empty).user_id <;>
      simp [analytics_event_handler, hp, apply_aggregate, hc]
  · simp [analytics_event_handler, hu, apply_user, hc]
  · cases hp : (event.payload.getD EventPayload.empty).user_id <;>
      simp [analytics_event_handler, hp, apply_aggregate, hrt]
  · simp [analytics_event_handler, hu, apply_user, hrt]
  · have hx := apply_aggregate_active_nonneg event.type (get_or_create_aggregate st) hpos
    cases hp : (event.payload.getD EventPayload.empty).user_id <;>
      simpa [analytics_event_handler, hp, get_or_create_aggregate] using hx

/-- Witness for C7: consuming `loan.created` for user 3 on the empty store
bumps the aggregate and user counters. -/
theorem C7_analytics_updates_witness :
    (analytics_event_handler stA0 evCreated3).aggregate =
      some { get_or_create_aggregate stA0 with
             total_loans := (get_or_create_aggregate stA0).total_loans + 1,
             active_loans := (get_or_create_aggregate stA0).active_loans + 1 } ∧
    (analytics_event_handler stA0 evCreated3).users 3 =
      some { get_or_create_user_metric stA0 3 with
             loans_taken := (get_or_create_user_metric stA0 3).loans_taken + 1 } :=
  ⟨((C7_analytics_updates stA0 evCreated3).1 rfl).1,
   ((C7_analytics_updates stA0 evCreated3).1 rfl).2 3 rfl⟩

/-! ## Claim C8: notification message templates -/

/-- The spec's §8 notification event for user 7 / "Some Book". -/
def evC8 : Event := ⟨some "loan.created", some ⟨some 7, some "eve", some "Some Book"⟩⟩

/-- C8 counterexample: the handler renders its messages with the Russian
templates of the implementation, not the English templates the claim
quotes: on a `loan.created` event for "eve" and "Some Book" the stored
message is `eve взял книгу "Some Book".`, not `eve borrowed Some Book.`. -/
theorem C8_counterexample :
    notification_message evC8 = "eve взял книгу \"Some Book\"." ∧
    notification_message evC8 ≠ "eve borrowed Some Book." :=
  ⟨rfl, by decide⟩

/-- C8 (amended): the stored message is derived by an
event-type-to-template lookup with the implementation's actual templates:
`loan.created ↦ "<user> взял книгу \"<book>\"."`,
`loan.returned ↦ "<user> вернул книгу \"<book>\"."`, and the default
`"Получено событие <type>"` for any other type, substituting the payload's
`user_name` and `book_title`. -/
theorem C8_message_lookup (event : Event) :
    notification_message event =
      lookup_message (event.type.getD "unknown")
        (optRepr (event.payload.getD EventPayload.empty).user_name)
        (optRepr (event.payload.getD EventPayload.empty).book_title) := by
  cases h1 : (event.type.getD "unknown" == "loan.created") <;>
    cases h2 : (event.type.getD "unknown" == "loan.returned") <;>
      simp [notification_message, lookup_message, message_table, List.lookup, h1, h2]

/-! ## Claim C9: loan listing filter truthiness and ordering -/

theorem mem_insertByDateDesc (a l : Loan) (xs : List Loan) :
    a ∈ insertByDateDesc l xs ↔ a = l ∨ a ∈ xs := by
  induction xs with
  | nil => simp [insertByDateDesc]
  | cons x xs ih =>
    simp only [insertByDateDesc]
    split_ifs with h
    · simp [List.mem_cons]
    · simp only [List.mem_cons, ih]
      tauto

theorem sorted_insertByDateDesc (l : Loan) (xs : List Loan)
    (h : xs.Pairwise (fun a b => b.loan_date ≤ a.loan_date)) :
    (insertByDateDesc l xs).Pairwise (fun a b => b.loan_date ≤ a.loan_date) := by
  induction xs with
  | nil => simp [insertByDateDesc]
  | cons x xs ih =>
    rcases List.pairwise_cons.mp h with ⟨hx, hxs⟩
    simp only [insertByDateDesc]
    split_ifs with hlt
    · refine List.pairwise_cons.mpr ⟨?_, h⟩
      intro b hb
      rcases List.mem_cons.mp hb with rfl | hbx
      · omega
      · have hbd := hx b hbx
        omega
    · refine List.pairwise_cons.mpr ⟨?_, ih hxs⟩
      intro b hb
      rcases (mem_insertByDateDesc b l xs).mp hb with rfl | hbx
      · omega
      · exact hx b hbx

theorem sorted_sortByDateDesc (xs : List Loan) :
    (sortByDateDesc xs).Pairwise (fun a b => b.loan_date ≤ a.loan_date) := by
  induction xs with
  | nil => simp [sortByDateDesc]
  | cons x xs ih => exact sorted_insertByDateDesc x _ ih

theorem mem_sortByDateDesc (a : Loan) (xs : List Loan) :
    a ∈ sortByDateDesc xs ↔ a ∈ xs := by
  induction xs with
  | nil => simp [sortByDateDesc]
  | cons x xs ih => simp [sortByDateDesc, mem_insertByDateDesc, ih]

/-- C9: `list_loans` applies the `user_id` filter only when `user_id` is
truthy: with `user_id = 0` the result equals the unfiltered listing, while
for nonzero `user_id` every returned loan belongs to that user; in both
cases the result is ordered by `loan_date` descending. -/
theorem C9_list_loans (loans : List Loan) (sf : Option String) :
    list_loans loans (some 0) sf = list_loans loans none sf ∧
    (∀ uid : Int, uid ≠ 0 →
      ∀ l ∈ list_loans loans (some uid) sf, l.user_id = uid) ∧
    (∀ uidq : Option Int,
      (list_loans loans uidq sf).Pairwise (fun a b => b.loan_date ≤ a.loan_date)) := by
  refine ⟨rfl, ?_, fun uidq => sorted_sortByDateDesc _⟩
  intro uid hne l hl
  have htr : truthyInt (some uid) = true := by
    simp [truthyInt, hne]
  simp only [list_loans, htr, if_true, mem_sortByDateDesc] at hl
  have hl' : l ∈ loans.filter (fun x => x.user_id == (some uid : Option Int).getD 0) := by
    by_cases hsf : truthyStr sf = true
    · rw [if_pos hsf] at hl
      exact List.mem_of_mem_filter hl
    · rw [if_neg (by simp [hsf]) ] at hl
      exact hl
  have hp := List.of_mem_filter hl'
  simpa using hp

/-- A second loan by a different user, for the C9 witness. -/
def loanB : Loan :=
  { id := 2, user_id := 5, user_name := "bob", book_id := 2, book_title := "Emma",
    loan_date := 4, due_date := 18, returned_date := none, status := "active" }

/-- Witness for C9: with `user_id = 0` the listing equals the unfiltered
one, and the loan returned for `user_id = 5` belongs to user 5. -/
theorem C9_list_loans_witness :
    list_loans [loanActive, loanB] (some 0) none = list_loans [loanActive, loanB] none none ∧
    loanB.user_id = 5 :=
  ⟨(C9_list_loans [loanActive, loanB] none).1,
   (C9_list_loans [loanActive, loanB] none).2.1 5 (by decide) loanB (by decide)⟩

/-! ## Claim C10: notification handler totality and defaults -/

/-- An event dictionary with no `type` and no `payload`. -/
def evEmpty : Event := ⟨none, none⟩

/-- C10: for every event dictionary, however incomplete, the notification
handler persists exactly one new Notification record (the prefix of the
table is untouched), whose fields substitute `user_id = 0`,
`user_name = "unknown"` and `book_title = "unknown"` for absent payload
fields and `event_type = "unknown"` for an absent type. -/
theorem C10_notification_total (now : Nat) (event : Event) (db : List Notification) :
    (notification_event_handler now event db).length = db.length + 1 ∧
    (notification_event_handler now event db).take db.length = db ∧
    (((notification_event_handler now event db).getLastD default).event_type =
        event.type.getD "unknown" ∧
      ((notification_event_handler now event db).getLastD default).user_id =
        (event.payload.getD EventPayload.empty).user_id.getD 0 ∧
      ((notification_event_handler now event db).getLastD default).user_name =
        (event.payload.getD EventPayload.empty).user_name.getD "unknown" ∧
      ((notification_event_handler now event db).getLastD default).book_title =
        (event.payload.getD EventPayload.empty).book_title.getD "unknown" ∧
      ((notification_event_handler now event db).getLastD default).message =
        notification_message event) ∧
    (event.payload = none →
      ((notification_event_handler now event db).getLastD default).user_id = 0 ∧
      ((notification_event_handler now event db).getLastD default).user_name = "unknown" ∧
      ((notification_event_handler now event db).getLastD default).book_title = "unknown") ∧
    (event.type = none →
      ((notification_event_handler now event db).getLastD default).event_type = "unknown") := by
  refine ⟨?_, ?_, ⟨?_, ?_, ?_, ?_, ?_⟩, fun hp => ?_, fun ht => ?_⟩ <;>
    simp [notification_event_handler, List.getLastD_concat, List.take_left]
  · simp [hp, EventPayload.empty]
  · simp [ht]

/-- Witness for C10 on the field-free event dictionary: one record is
persisted with all the documented defaults. -/
theorem C10_notification_total_witness :
    (notification_event_handler 0 evEmpty []).length =
      List.length ([] : List Notification) + 1 ∧
    ((notification_event_handler 0 evEmpty []).getLastD default).user_id = 0 ∧
    ((notification_event_handler 0 evEmpty []).getLastD default).user_name = "unknown" ∧
    ((notification_event_handler 0 evEmpty []).getLastD default).book_title = "unknown" ∧
    ((notification_event_handler 0 evEmpty []).getLastD default).event_type = "unknown" :=
  ⟨(C10_notification_total 0 evEmpty []).1,
   ((C10_notification_total 0 evEmpty []).2.2.2.1 rfl).1,
   ((C10_notification_total 0 evEmpty []).2.2.2.1 rfl).2.1,
   ((C10_notification_total 0 evEmpty []).2.2.2.1 rfl).2.2,
   (C10_notification_total 0 evEmpty []).2.2.2.2 rfl⟩
